/-
Verification of the retrieval-augmented chat notebook
(sagemaker/sagemaker-llm-rag.ipynb) against its design specification.

The Python cells are shallowly embedded: each Python helper becomes a Lean
function over explicit data (lists of lines, JSON trees, chat-loop states),
and fallible Python operations (list indexing, float conversion, dict lookup)
return `Except PyErr`.
-/
import Mathlib

set_option autoImplicit false
set_option maxRecDepth 8000

/-- Python exception kinds raised by the embedded code. -/
inductive PyErr where
  | indexError
  | valueError
  | keyError
  | typeError
deriving DecidableEq, Repr

deriving instance DecidableEq for Except

/-- Is an `Except` value a success?  (Avoids depending on library helpers.) -/
def isOkE {ε α : Type} : Except ε α → Bool
  | Except.ok _ => true
  | Except.error _ => false

/-- Successful value of an `Except`, if any. -/
def toOptE {ε α : Type} : Except ε α → Option α
  | Except.ok a => some a
  | Except.error _ => none

/-- Python list indexing `l[i]` for a non-negative index: raises IndexError
when the index is out of range. -/
def pyGet {α : Type} (l : List α) (i : Nat) : Except PyErr α :=
  match l.get? i with
  | some x => Except.ok x
  | none => Except.error PyErr.indexError

/-- Python `str.split(sep)` for a one-character separator, on the character
list of the string: splits at every occurrence of the separator.
`[] → [""]`, mirroring `"".split(":") == [""]`. -/
def splitOnChar (sep : Char) : List Char → List (List Char)
  | [] => [[]]
  | c :: t =>
    let r := splitOnChar sep t
    if c = sep then [] :: r
    else (c :: r.headI) :: r.tail

/-- Python `str.split(sep)` for a one-character separator. -/
def pySplit (s : String) (sep : Char) : List String :=
  (splitOnChar sep s.data).map String.mk

/-- The whitespace characters removed by Python `str.strip()` (ASCII subset;
the code never feeds non-ASCII whitespace to `strip`). -/
def isPySpace (c : Char) : Bool :=
  c = ' ' || c = '\t' || c = '\n' || c = '\r' || c = '\x0b' || c = '\x0c'

/-- Python `str.strip()` on a character list. -/
def pyStripChars (l : List Char) : List Char :=
  ((l.dropWhile isPySpace).reverse.dropWhile isPySpace).reverse

/-- Python `str.strip()`. -/
def pyStrip (s : String) : String :=
  String.mk (pyStripChars s.data)

/-- Lower-case an ASCII letter (used by Python `float` for `nan`/`inf`). -/
def asciiLower (c : Char) : Char :=
  if 'A' ≤ c ∧ c ≤ 'Z' then Char.ofNat (c.toNat + 32) else c

/-- Value of a list of decimal digit characters. -/
def digitsToNat (ds : List Char) : Nat :=
  ds.foldl (fun a c => a * 10 + (c.toNat - 48)) 0

/-- An exact decimal value `mantissa * 10 ^ exponent`, the result of parsing a
finite decimal literal.  (Binary rounding of Python floats is not modelled;
the claims only inspect whether a rating equals zero, which is exact.) -/
structure DecValue where
  mantissa : Int
  exponent : Int
deriving DecidableEq, Repr

/-- A Python float as produced by `float(<string>)`. -/
inductive PyFloat where
  | nan
  | inf (neg : Bool)
  | finite (v : DecValue)
deriving DecidableEq, Repr

/-- Does a Python float compare equal to `0.0`?  (`-0.0 == 0.0` in Python, and
a zero mantissa gives the value zero for every exponent.) -/
def PyFloat.isZero : PyFloat → Bool
  | PyFloat.finite v => v.mantissa = 0
  | _ => false

/-- Exponent suffix of a Python float literal: an optional sign followed by at
least one digit and nothing else. -/
def parseExpDigits (t : List Char) : Option Int :=
  match t with
  | '+' :: r => if r ≠ [] ∧ r.all Char.isDigit then some (digitsToNat r : Int) else none
  | '-' :: r => if r ≠ [] ∧ r.all Char.isDigit then some (-(digitsToNat r : Int)) else none
  | r => if r ≠ [] ∧ r.all Char.isDigit then some (digitsToNat r : Int) else none

/-- Unsigned finite decimal accepted by Python `float`:
`digits [ "." digits ] [ ("e"|"E") [sign] digits ]` with at least one mantissa
digit.  (Python also accepts underscore digit separators; the notebook data
never uses them and they are not modelled.) -/
def parseUnsignedDecimal (l : List Char) : Option DecValue :=
  let ip := l.takeWhile Char.isDigit
  let r1 := l.dropWhile Char.isDigit
  let fp := match r1 with
    | '.' :: t => t.takeWhile Char.isDigit
    | _ => []
  let r2 := match r1 with
    | '.' :: t => t.dropWhile Char.isDigit
    | _ => r1
  if ip.isEmpty && fp.isEmpty then none
  else
    match (match r2 with
           | [] => some (0 : Int)
           | 'e' :: t => parseExpDigits t
           | 'E' :: t => parseExpDigits t
           | _ => none) with
    | none => none
    | some e => some { mantissa := (digitsToNat (ip ++ fp) : Int), exponent := e - fp.length }

/-- Python `float(<string>)`: strip whitespace, take an optional sign, accept
`nan` / `inf` / `infinity` case-insensitively, else a finite decimal literal.
Returns `none` where Python raises ValueError. -/
def pyFloat? (s : String) : Option PyFloat :=
  let l := pyStripChars s.data
  let (neg, l1) : Bool × List Char :=
    match l with
    | '+' :: t => (false, t)
    | '-' :: t => (true, t)
    | _ => (false, l)
  let low := String.mk (l1.map asciiLower)
  if low = "nan" then some PyFloat.nan
  else if low = "inf" ∨ low = "infinity" then some (PyFloat.inf neg)
  else
    match parseUnsignedDecimal l1 with
    | some v => some (PyFloat.finite (if neg then { v with mantissa := -v.mantissa } else v))
    | none => none

/-- `float(s)` as an `Except`: ValueError when the string is not numeric. -/
def pyFloatConv (s : String) : Except PyErr PyFloat :=
  match pyFloat? s with
  | some f => Except.ok f
  | none => Except.error PyErr.valueError

/-- Python `"".join(l)`: concatenation of a list of strings. -/
def joinStrs : List String → String
  | [] => ""
  | s :: t => s ++ joinStrs t

/-- One parsed movie document, mirroring the `Document` built by the loading
loop: `page_content` plus the metadata fields (the loop parses `title` and
`overview` too but stores neither in the metadata). -/
structure Record where
  movie_id : String
  rating : PyFloat
  genres : List String
  spoken_languages : List String
  release_date : String
  cast : List String
  page_content : String
deriving DecidableEq, Repr

/-- `lines[i].split(":")[1].strip()` — the field extraction used for every
labeled line of a source file. -/
def splitField (lines : List String) (i : Nat) : Except PyErr String := do
  let line ← pyGet lines i
  let part ← pyGet (pySplit line ':') 1
  pure (pyStrip part)

/-- Body of the document loading loop for one file (its `readlines` result):

```
movie_id = lines[0].split(":")[1].strip()
...
rating = lines[5].split(":")[1].strip()
if rating == "nan": rating = "0"
cast = lines[6].split(":")[1].strip()
overview = lines[7].split(":")[1].strip()
doc = Document(page_content="".join(lines), metadata={..., "rating": float(rating), ...})
```

`float(rating)` is evaluated while building the `Document`, after the `cast`
and `overview` lines are read, so the conversion error comes last. -/
def loadRecord (lines : List String) : Except PyErr Record := do
  let movie_id ← splitField lines 0
  let _title ← splitField lines 1
  let genres ← splitField lines 2
  let spoken_languages ← splitField lines 3
  let release_date ← splitField lines 4
  let rating0 ← splitField lines 5
  let rating := if rating0 = "nan" then "0" else rating0
  let cast ← splitField lines 6
  let _overview ← splitField lines 7
  let ratingF ← pyFloatConv rating
  pure { movie_id := movie_id
         rating := ratingF
         genres := pySplit genres ','
         spoken_languages := pySplit spoken_languages ','
         release_date := release_date
         cast := pySplit cast ','
         page_content := joinStrs lines }

/-- The loading loop over all files (`for file in glob.glob("data/*.txt")`).
There is no try/except around the body, so the first exception propagates and
aborts the whole loop. -/
def loadDocs : List (List String) → Except PyErr (List Record)
  | [] => Except.ok []
  | f :: fs => do
    let r ← loadRecord f
    let rs ← loadDocs fs
    pure (r :: rs)

/-- A well-formed 8-line source file whose rating line is `Rating: nan`. -/
def fileNan : List String :=
  ["Movie Id: 1\n", "Title: Toy Story\n", "Genres: Animation,Comedy\n",
   "Spoken Languages: English\n", "Release Date: 1995-11-22\n", "Rating: nan\n",
   "Cast: Tom Hanks,Tim Allen\n", "Overview: Toys come alive.\n"]

/-- The same file with a non-numeric rating value other than `nan`. -/
def fileAbc : List String :=
  ["Movie Id: 1\n", "Title: Toy Story\n", "Genres: Animation,Comedy\n",
   "Spoken Languages: English\n", "Release Date: 1995-11-22\n", "Rating: abc\n",
   "Cast: Tom Hanks,Tim Allen\n", "Overview: Toys come alive.\n"]

/-- The same file with the numeric rating value `0`. -/
def fileZero : List String :=
  ["Movie Id: 1\n", "Title: Toy Story\n", "Genres: Animation,Comedy\n",
   "Spoken Languages: English\n", "Release Date: 1995-11-22\n", "Rating: 0\n",
   "Cast: Tom Hanks,Tim Allen\n", "Overview: Toys come alive.\n"]

/-- A malformed source file with fewer than 8 lines. -/
def fileShort : List String :=
  ["Movie Id: 2\n", "Title: Short\n"]

/-- A JSON value as produced by `json.loads` / consumed by `json.dumps`.
Object keys are strings, as in every value `json.loads` can return; numbers
are exact decimals. -/
inductive Json where
  | null
  | bool (b : Bool)
  | num (v : DecValue)
  | str (s : String)
  | arr (elems : List Json)
  | obj (fields : List (String × Json))

/-- Python subscript `j[i]` with an integer index: arrays and strings index
(negative indices count from the end, out of range raises IndexError), a dict
raises KeyError for an integer key (parsed-JSON dicts have string keys only),
and other values raise TypeError. -/
def pyIndexInt (j : Json) (i : Int) : Except PyErr Json :=
  match j with
  | Json.arr xs =>
    let idx : Int := if i < 0 then i + (xs.length : Int) else i
    if idx < 0 then Except.error PyErr.indexError
    else
      match xs.get? idx.toNat with
      | some x => Except.ok x
      | none => Except.error PyErr.indexError
  | Json.str s =>
    let idx : Int := if i < 0 then i + (s.data.length : Int) else i
    if idx < 0 then Except.error PyErr.indexError
    else
      match s.data.get? idx.toNat with
      | some c => Except.ok (Json.str (String.mk [c]))
      | none => Except.error PyErr.indexError
  | Json.obj _ => Except.error PyErr.keyError
  | _ => Except.error PyErr.typeError

/-- Python subscript `j[k]` with a string key: dict lookup (KeyError when the
key is absent); lists, strings and scalars raise TypeError. -/
def pyIndexStr (j : Json) (k : String) : Except PyErr Json :=
  match j with
  | Json.obj kvs =>
    match kvs.lookup k with
    | some v => Except.ok v
    | none => Except.error PyErr.keyError
  | _ => Except.error PyErr.typeError

/-- `SMLLMContentHandler.transform_output`:

```
response_json = json.loads(output.read().decode("utf-8"))
return response_json[0]["generated_text"]
```

modelled on the parsed response body. -/
def transform_output (body : Json) : Except PyErr Json := do
  let x ← pyIndexInt body 0
  pyIndexStr x "generated_text"

/-- Does a response body carry the generated-text field where
`transform_output` looks for it: element `0` is an object with key
`generated_text`? -/
def hasGeneratedText : Json → Bool
  | Json.arr (Json.obj kvs :: _) => kvs.any (fun kv => kv.1 == "generated_text")
  | _ => false

/-- Hex digit character, lower case, as printed by `json.dumps` escapes. -/
def hexDigit (n : Nat) : Char :=
  if n < 10 then Char.ofNat (48 + n) else Char.ofNat (87 + n)

/-- A `\uXXXX` escape for a code point below `0x10000`. -/
def uEscape (n : Nat) : String :=
  "\\u" ++ String.mk [hexDigit (n / 4096 % 16), hexDigit (n / 256 % 16),
                      hexDigit (n / 16 % 16), hexDigit (n % 16)]

/-- `json.dumps` escaping of one character (default `ensure_ascii=True`;
the `\b` and `\f` shorthands are rendered as `\uXXXX`, equivalent JSON). -/
def escChar (c : Char) : String :=
  if c = '"' then "\\\""
  else if c = '\\' then "\\\\"
  else if c = '\n' then "\\n"
  else if c = '\r' then "\\r"
  else if c = '\t' then "\\t"
  else if c.toNat < 32 ∨ 127 ≤ c.toNat then uEscape c.toNat
  else String.mk [c]

/-- `json.dumps` of a string. -/
def strDumps (s : String) : String :=
  "\"" ++ joinStrs (s.data.map escChar) ++ "\""

/-- `json.dumps` of one chat message dict `{"role": role, "content": content}`
(insertion order, default separators). -/
def dumpMessage (role content : String) : String :=
  "\x7b" ++ strDumps "role" ++ ": " ++ strDumps role ++ ", " ++
    strDumps "content" ++ ": " ++ strDumps content ++ "\x7d"

/-- The stringified instruction list of `transform_input`:

```
input_data = json.dumps([[{"role": "system", "content": "You are a movie assistant."},
                          {"role": "user", "content": prompt}]])
``` -/
def dumpInstructions (prompt : String) : String :=
  "[[" ++ dumpMessage "system" "You are a movie assistant." ++ ", " ++
    dumpMessage "user" prompt ++ "]]"

/-- `SMLLMContentHandler.transform_input`: the request body
`{"inputs": input_data, "parameters": {**model_kwargs}}`, modelled as the JSON
value whose `json.dumps` UTF-8 bytes the Python method returns. -/
def transform_input (prompt : String) (model_kwargs : List (String × Json)) : Json :=
  Json.obj [("inputs", Json.str (dumpInstructions prompt)),
            ("parameters", Json.obj model_kwargs)]

/-- The `model_params` dict passed to `SagemakerEndpoint` as `model_kwargs`. -/
def model_params : List (String × Json) :=
  [("do_sample", Json.bool true),
   ("top_p", Json.num { mantissa := 9, exponent := -1 }),
   ("temperature", Json.num { mantissa := 1, exponent := -1 }),
   ("max_new_tokens", Json.num { mantissa := 1000, exponent := 0 }),
   ("stop", Json.arr [Json.str "<|endoftext|>", Json.str "</s>"]),
   ("repetition_penalty", Json.num { mantissa := 11, exponent := -1 })]

/-- Keys of a JSON object, in order. -/
def objKeys : Json → List String
  | Json.obj kvs => kvs.map Prod.fst
  | _ => []

/-- Lookup of a key in a JSON object. -/
def jsonLookup (j : Json) (k : String) : Option Json :=
  match j with
  | Json.obj kvs => kvs.lookup k
  | _ => none

/-- Modelled from the spec: the Prompt Assembler substitution step.  The
implementation lives in the LangChain `PromptTemplate` (f-string formatting,
i.e. Python `str.format` named-field lookup), which is library code outside
this repository.  Scans the template: `\x7b\x7b` and `\x7d\x7d` are literal
braces, `\x7bname\x7d` substitutes the named slot (KeyError when absent —
the TemplateError of the spec), a stray brace is a ValueError.  Substituted
values are inserted verbatim, as in Python.  The first argument is fuel for
termination; `pyFormat` supplies enough for the whole template. -/
def pyFormatAux (vals : List (String × String)) :
    Nat → List Char → String → Except PyErr String
  | 0, _, _ => Except.error PyErr.valueError
  | _ + 1, [], acc => Except.ok acc
  | fuel + 1, '\x7b' :: '\x7b' :: rest, acc => pyFormatAux vals fuel rest (acc.push '\x7b')
  | fuel + 1, '\x7d' :: '\x7d' :: rest, acc => pyFormatAux vals fuel rest (acc.push '\x7d')
  | _ + 1, '\x7d' :: _, _ => Except.error PyErr.valueError
  | fuel + 1, '\x7b' :: rest, acc =>
    match rest.dropWhile (fun c => c ≠ '\x7d') with
    | '\x7d' :: r3 =>
      match vals.lookup (String.mk (rest.takeWhile (fun c => c ≠ '\x7d'))) with
      | some v => pyFormatAux vals fuel r3 (acc ++ v)
      | none => Except.error PyErr.keyError
    | _ => Except.error PyErr.valueError
  | fuel + 1, c :: rest, acc => pyFormatAux vals fuel rest (acc.push c)

/-- Template substitution with named slots (see `pyFormatAux`). -/
def pyFormat (template : String) (vals : List (String × String)) : Except PyErr String :=
  pyFormatAux vals (template.data.length + 1) template.data ""

/-- The `prompt_template` string of the notebook, including its trailing
`.strip()` call. -/
def prompt_template : String :=
  pyStrip ("Given the following context and conversation history:\n\nContext: \n{context}\n\n\nConversation History: \n{chat_history}\n\nAnswer the question as truthfully as possible. Your answer must only be coming from the context given above. If the answer is not found in the given context. Say \"I don\u0027t know\"\nYour answer must be in a summary and direct in a concise manner. It\u0027s critical that you are only allowed to use the context given to you in answering the question.\n\nUser question: {question}")

/-- The declared `input_variables` of the `PromptTemplate`. -/
def prompt_input_variables : List String := ["chat_history", "context", "question"]

/-- The text widget of the chat UI: its current value and its disabled flag. -/
structure TextWidget where
  value : String
  disabled : Bool
deriving DecidableEq, Repr

/-- State of one `ChatUX` instance: the input text widget `self.name` (`none`
between turns, as in the code), the disabled flag of the Send button widget
(`none` before the first widget is created), the conversation memory of its
`ConversationalRetrievalChain`, the lines printed to the output surface, and
the number of chain invocations made so far (for the no-retry property). -/
structure ChatState where
  name : Option TextWidget
  sendDisabled : Option Bool
  memory : List (String × String)
  out : List String
  qaCalls : Nat
deriving DecidableEq, Repr

/-- The retrieval-QA chain as seen by one turn: given the current memory and
the question it either returns the answer string or raises (the error carries
the printed exception text). -/
def Oracle : Type := List (String × String) → String → Except String String

/-- The quit test of `ChatUX.chat`:
`if 'q' == prompt or 'quit' == prompt or 'Q' == prompt`. -/
def isQuitInput (prompt : String) : Bool :=
  prompt = "q" || prompt = "quit" || prompt = "Q"

/-- `ChatUX.chat`, one invocation of the click handler.

* `prompt` is `""` when `self.name is None`, else the widget text.
* On the quit sentinel: print the farewell and return — the existing widgets
  are left as they are.
* On non-empty text: invoke the chain once; on success print the answer, on
  any exception print the exception and `AI: No answer`; then disable the old
  widgets and set `self.name = None`.
* Finally, when `self.name is None`, display a fresh enabled text box and
  Send button.

Modelled from the spec for the chain memory (library code outside this
repository): Processing ends with a Conversation Memory append of the
(question, answer) pair, so the append happens exactly when the chain call
returns successfully and an exception leaves the memory unchanged. -/
def ChatUX_chat (oracle : Oracle) (s : ChatState) : ChatState :=
  let prompt := match s.name with
    | none => ""
    | some w => w.value
  if isQuitInput prompt then
    { s with out := s.out ++ ["Thank you , that was a nice chat !!"] }
  else
    let s1 :=
      if 0 < prompt.length then
        match oracle s.memory prompt with
        | Except.ok ans =>
          { s with memory := s.memory ++ [(prompt, ans)],
                   out := s.out ++ ["AI: " ++ ans],
                   qaCalls := s.qaCalls + 1,
                   name := none,
                   sendDisabled := some true }
        | Except.error e =>
          { s with out := s.out ++ [e, "AI: No answer"],
                   qaCalls := s.qaCalls + 1,
                   name := none,
                   sendDisabled := some true }
      else s
    match s1.name with
    | none => { s1 with name := some { value := "", disabled := false },
                        sendDisabled := some false }
    | some _ => s1

/-- The user typing `v` into the input box (before clicking Send). -/
def setInput (s : ChatState) (v : String) : ChatState :=
  { s with name := some { value := v, disabled := false } }

/-- The state after `start_chat`: an enabled empty input box, empty memory. -/
def initChatState : ChatState :=
  { name := some { value := "", disabled := false },
    sendDisabled := some false, memory := [], out := [], qaCalls := 0 }

/-- A sequence of user turns: type each question, click Send. -/
def runTurns (oracle : Oracle) (s : ChatState) (qs : List String) : ChatState :=
  qs.foldl (fun st q => ChatUX_chat oracle (setInput st q)) s

/-- A chain that always succeeds, answering with `ans`. -/
def okOracle (ans : String → String) : Oracle :=
  fun _ q => Except.ok (ans q)

/-- A chain whose call always raises. -/
def errOracle : Oracle :=
  fun _ _ => Except.error "boom"

/-- A concrete always-successful chain used in counterexamples. -/
def oracle0 : Oracle :=
  fun _ _ => Except.ok "fine"

/-- One chat message dict, with its `role` and `content` entries. -/
structure Instr where
  role : String
  content : String
deriving DecidableEq, Repr

/-- Python slice `l[::2]`: the elements at even positions. -/
def evens {α : Type} : List α → List α
  | [] => []
  | [a] => [a]
  | a :: _ :: t => a :: evens t

/-- Python slice `l[1::2]`: the elements at odd positions. -/
def odds {α : Type} (l : List α) : List α :=
  evens (l.drop 1)

/-- The six strings appended for one (user, assistant) pair of the loop in
`format_instructions`. -/
def instSeg (u a : Instr) : List String :=
  ["<s>", "[INST] ", pyStrip u.content, " [/INST] ", pyStrip a.content, "</s>"]

/-- `format_instructions`:

```
prompt = []
for user, answer in zip(instructions[::2], instructions[1::2]):
    prompt.extend(["<s>", "[INST] ", user["content"].strip(), " [/INST] ",
                   answer["content"].strip(), "</s>"])
prompt.extend(["<s>", "[INST] ", instructions[-1]["content"].strip(), " [/INST] "])
return "".join(prompt)
```

`instructions[-1]` raises IndexError on an empty list. -/
def format_instructions (instructions : List Instr) : Except PyErr String :=
  match instructions.getLast? with
  | none => Except.error PyErr.indexError
  | some lastI =>
    let pairs := (evens instructions).zip (odds instructions)
    let body := pairs.foldl (fun acc p => acc ++ instSeg p.1 p.2) ([] : List String)
    Except.ok (joinStrs (body ++ ["<s>", "[INST] ", pyStrip lastI.content, " [/INST] "]))

/-- Consecutive disjoint pairs of a list; proved equal to
`zip (evens l) (odds l)` below. -/
def pairUp {α : Type} : List α → List (α × α)
  | a :: b :: t => (a, b) :: pairUp t
  | _ => []

/-- Recursion principle stepping two list elements at a time. -/
def twoStepInduction {α : Type} {P : List α → Prop} (h0 : P [])
    (h1 : ∀ a, P [a]) (h2 : ∀ a b t, P t → P (a :: b :: t)) :
    ∀ l, P l
  | [] => h0
  | [a] => h1 a
  | a :: b :: t => h2 a b t (twoStepInduction h0 h1 h2 t)

/-- A two-message dialogue used as a concrete instruction list. -/
def demoInstrs : List Instr :=
  [{ role := "user", content := "hi" }, { role := "assistant", content := " there " }]

theorem pyGet_ok {α : Type} {l : List α} {i : Nat} {x : α}
    (h : pyGet l i = Except.ok x) : l.get? i = some x := by
  unfold pyGet at h
  cases hg : l.get? i <;> rw [hg] at h
  · exact absurd h (by simp)
  · injection h with h; rw [h]

theorem splitOnChar_of_not_mem {sep : Char} :
    ∀ l : List Char, sep ∉ l → splitOnChar sep l = [l] := by
  intro l
  induction l with
  | nil => intro _; rfl
  | cons c t ih =>
    intro hmem
    have hc : ¬c = sep := fun h => hmem (h ▸ List.mem_cons_self c t)
    have ht : sep ∉ t := fun h => hmem (List.mem_cons_of_mem c h)
    simp [splitOnChar, ih ht, hc]

theorem splitField_ok_inv {lines : List String} {i : Nat} {v : String}
    (h : splitField lines i = Except.ok v) :
    ∃ line, lines.get? i = some line ∧ 1 < (pySplit line ':').length := by
  unfold splitField at h
  simp only [bind, Except.bind, pure, Except.pure] at h
  split at h
  · exact absurd h (by simp)
  rename_i line hline
  split at h
  · exact absurd h (by simp)
  rename_i part hpart
  refine ⟨line, pyGet_ok hline, ?_⟩
  have := pyGet_ok hpart
  exact (List.get?_eq_some.mp this).1

theorem loadRecord_ok_inv {lines : List String} {r : Record}
    (h : loadRecord lines = Except.ok r) :
    (∀ i, i < 8 → isOkE (splitField lines i) = true) ∧
    ∃ v, splitField lines 5 = Except.ok v ∧
      pyFloatConv (if v = "nan" then "0" else v) = Except.ok r.rating := by
  unfold loadRecord at h
  simp only [bind, Except.bind, pure, Except.pure] at h
  split at h
  · exact absurd h (by simp)
  rename_i v0 h0
  split at h
  · exact absurd h (by simp)
  rename_i v1 h1
  split at h
  · exact absurd h (by simp)
  rename_i v2 h2
  split at h
  · exact absurd h (by simp)
  rename_i v3 h3
  split at h
  · exact absurd h (by simp)
  rename_i v4 h4
  split at h
  · exact absurd h (by simp)
  rename_i v5 h5
  split at h
  · exact absurd h (by simp)
  rename_i v6 h6
  split at h
  · exact absurd h (by simp)
  rename_i v7 h7
  split at h
  · exact absurd h (by simp)
  rename_i vf hf
  injection h with h
  constructor
  · intro i hi
    interval_cases i <;>
      simp [h0, h1, h2, h3, h4, h5, h6, h7, isOkE]
  · refine ⟨v5, h5, ?_⟩
    rw [hf, ← h]

theorem isOkE_true_iff {ε α : Type} (x : Except ε α) :
    isOkE x = true ↔ ∃ a, x = Except.ok a := by
  cases x <;> simp [isOkE]

/-- Claim C1, counterexample.  The loading loop coerces only the literal
string `nan` to zero: the non-numeric rating value `abc` raises ValueError
and the load of that file fails instead of producing a zero rating, while the
numeric rating value `0` — neither `nan` nor non-numeric — also yields a
`Record` with rating `0.0`, so `rating == 0.0` does not hold exactly on the
claimed set of inputs. -/
theorem c1_rating_counterexample :
    loadRecord fileAbc = Except.error PyErr.valueError ∧
    Option.map Record.rating (toOptE (loadRecord fileZero)) =
      some (PyFloat.finite { mantissa := 0, exponent := 0 }) ∧
    pyFloat? "abc" = none ∧
    pyFloat? "0" = some (PyFloat.finite { mantissa := 0, exponent := 0 }) ∧
    ("0" : String) ≠ "nan" :=
  ⟨by decide, by decide, by decide, by decide, by decide⟩

/-- Claim C1 (amended).  For every file whose rating line parses, the Record
produced by the loading loop has rating `0.0` exactly when the rating value is
the literal string `nan` (replaced by `"0"` before conversion) or is a numeric
literal of value zero; a non-numeric rating value other than `nan` is not
coerced — `float` raises ValueError and the load of that file fails.  In
particular a file with rating line `Rating: nan` yields rating `0.0`. -/
theorem c1_rating_amended :
    ∀ (lines : List String) (v : String), splitField lines 5 = Except.ok v →
      ((v ≠ "nan" ∧ pyFloat? v = none) → isOkE (loadRecord lines) = false) ∧
      (∀ r, loadRecord lines = Except.ok r →
        (r.rating.isZero = true ↔
          (v = "nan" ∨ (pyFloat? v).map PyFloat.isZero = some true))) := by
  intro lines v hv
  constructor
  · rintro ⟨hne, hnone⟩
    cases hlr : loadRecord lines with
    | error e => rfl
    | ok r =>
      exfalso
      obtain ⟨-, v', hv', hconv⟩ := loadRecord_ok_inv hlr
      have hvv : v' = v := by
        rw [hv] at hv'; injection hv' with h; exact h.symm
      rw [hvv] at hconv
      rw [if_neg hne] at hconv
      unfold pyFloatConv at hconv
      rw [hnone] at hconv
      exact absurd hconv (by simp)
  · intro r hr
    obtain ⟨-, v', hv', hconv⟩ := loadRecord_ok_inv hr
    have hvv : v' = v := by
      rw [hv] at hv'; injection hv' with h; exact h.symm
    rw [hvv] at hconv
    by_cases hn : v = "nan"
    · rw [if_pos hn] at hconv
      have h0 : pyFloatConv "0" =
          Except.ok (PyFloat.finite { mantissa := 0, exponent := 0 }) := by decide
      rw [h0] at hconv
      injection hconv with hrat
      constructor
      · intro _; exact Or.inl hn
      · intro _; rw [← hrat]; decide
    · rw [if_neg hn] at hconv
      unfold pyFloatConv at hconv
      cases hp : pyFloat? v with
      | none => rw [hp] at hconv; exact absurd hconv (by simp)
      | some f =>
        rw [hp] at hconv
        injection hconv with hf
        rw [← hf]
        simp [hn]

/-- Claim C1, witness: the file with rating line `Rating: nan` loads into a
Record whose rating is zero. -/
theorem c1_rating_amended_witness :
    PyFloat.isZero (Record.rating
      { movie_id := "1", rating := PyFloat.finite { mantissa := 0, exponent := 0 },
        genres := ["Animation", "Comedy"], spoken_languages := ["English"],
        release_date := "1995-11-22", cast := ["Tom Hanks", "Tim Allen"],
        page_content := joinStrs fileNan }) = true :=
  ((c1_rating_amended fileNan "nan" (by decide)).2 _ (by decide)).mpr (Or.inl rfl)

/-- Claim C2, counterexample.  A malformed file does abort its own parse, but
the loading loop has no try/except: the exception propagates, so loading does
NOT continue for the remaining files — a well-formed file after a malformed
one produces no Record, although on its own it loads fine. -/
theorem c2_abort_counterexample :
    loadDocs [fileShort, fileNan] = Except.error PyErr.indexError ∧
    isOkE (loadDocs [fileNan]) = true :=
  ⟨by decide, by decide⟩

/-- Claim C2 (amended).  A file with fewer than 8 lines, or with a line among
the first 8 lacking the `label: value` separator, fails to parse (IndexError,
the ParseError of the spec), and the error is fatal to the ENTIRE load: the
loop stops at the first malformed file and the remaining files are not
loaded. -/
theorem c2_loader_abort :
    (∀ lines : List String,
      (lines.length < 8 ∨
        ∃ i line, i < 8 ∧ lines.get? i = some line ∧ (':' ∉ line.data)) →
      isOkE (loadRecord lines) = false) ∧
    (∀ (bad : List String) (rest : List (List String)),
      isOkE (loadRecord bad) = false →
      isOkE (loadDocs (bad :: rest)) = false) := by
  constructor
  · intro lines H
    cases hlr : loadRecord lines with
    | error e => rfl
    | ok r =>
      exfalso
      obtain ⟨hfields, -⟩ := loadRecord_ok_inv hlr
      rcases H with hshort | ⟨i, line, hi, hline, hcolon⟩
      · obtain ⟨v, h7⟩ := (isOkE_true_iff _).mp (hfields 7 (by omega))
        obtain ⟨line, hget, -⟩ := splitField_ok_inv h7
        have := (List.get?_eq_some.mp hget).1
        omega
      · obtain ⟨v, hok⟩ := (isOkE_true_iff _).mp (hfields i hi)
        obtain ⟨line', hget, hlen⟩ := splitField_ok_inv hok
        have hll : line' = line := by rw [hline] at hget; injection hget with h; exact h.symm
        subst hll
        have hsplit : splitOnChar ':' line'.data = [line'.data] :=
          splitOnChar_of_not_mem line'.data hcolon
        rw [pySplit, hsplit] at hlen
        simp at hlen
  · intro bad rest hbad
    cases hb : loadRecord bad with
    | error e => simp [loadDocs, bind, Except.bind, hb, isOkE]
    | ok r => rw [hb] at hbad; exact absurd hbad (by simp [isOkE])

/-- Claim C2, witness: the two-line file fails to load, and a load starting
with it fails as a whole. -/
theorem c2_loader_abort_witness :
    isOkE (loadRecord fileShort) = false ∧
    isOkE (loadDocs (fileShort :: [fileNan])) = false :=
  ⟨c2_loader_abort.1 fileShort (Or.inl (by decide)),
   c2_loader_abort.2 fileShort [fileNan] (c2_loader_abort.1 fileShort (Or.inl (by decide)))⟩

/-- Claim C3, counterexample.  The quit test is case-sensitive apart from the
two spellings `q` and `Q`: the input `Quit` is processed as an ordinary
question (the chain is invoked and the pair enters the memory).  Moreover a
quit turn does not disable the input control — after entering `q` the text box
is still present and enabled, and a further click with new text still triggers
a Processing turn. -/
theorem c3_quit_counterexample :
    (ChatUX_chat oracle0 (setInput initChatState "Quit")).qaCalls = 1 ∧
    (ChatUX_chat oracle0 (setInput initChatState "Quit")).memory = [("Quit", "fine")] ∧
    (ChatUX_chat oracle0 (setInput initChatState "q")).name =
      some { value := "q", disabled := false } ∧
    (ChatUX_chat oracle0
      (setInput (ChatUX_chat oracle0 (setInput initChatState "q")) "hello")).qaCalls = 1 :=
  ⟨by decide, by decide, by decide, by decide⟩

/-- Claim C3 (amended).  Exactly the inputs `q`, `Q` and `quit` are quit
sentinels.  On such an input the handler prints the farewell and returns:
no Processing happens in that turn (no chain call, no memory change) and no
new input box is created.  The state is otherwise unchanged — in particular
the existing input control is NOT disabled, so termination is only by
convention, not enforced. -/
theorem c3_quit_amended :
    ∀ (oracle : Oracle) (s : ChatState) (w : TextWidget),
      s.name = some w → isQuitInput w.value = true →
      ChatUX_chat oracle s =
        { s with out := s.out ++ ["Thank you , that was a nice chat !!"] } := by
  intro oracle s w hw hq
  unfold ChatUX_chat
  rw [hw]
  simp [hq]

/-- Claim C3, witness: entering `q` prints the farewell and changes nothing
else. -/
theorem c3_quit_amended_witness :
    ChatUX_chat oracle0 (setInput initChatState "q") =
      { setInput initChatState "q" with
        out := (setInput initChatState "q").out ++
          ["Thank you , that was a nice chat !!"] } :=
  c3_quit_amended oracle0 (setInput initChatState "q")
    { value := "q", disabled := false } rfl rfl

/-- Claim C4.  When the chain call of a Processing turn raises, the exception
is caught: the exception text and the literal `AI: No answer` are printed, the
loop returns to AwaitingInput (a fresh enabled input box and Send button), and
the chain was invoked exactly once — no crash, no retry. -/
theorem c4_no_answer :
    ∀ (oracle : Oracle) (s : ChatState) (w : TextWidget) (e : String),
      s.name = some w → isQuitInput w.value = false → 0 < w.value.length →
      oracle s.memory w.value = Except.error e →
      (ChatUX_chat oracle s).out = s.out ++ [e, "AI: No answer"] ∧
      (ChatUX_chat oracle s).name = some { value := "", disabled := false } ∧
      (ChatUX_chat oracle s).sendDisabled = some false ∧
      (ChatUX_chat oracle s).qaCalls = s.qaCalls + 1 := by
  intro oracle s w e hw hq hlen herr
  unfold ChatUX_chat
  rw [hw]
  simp [hq, hlen, herr]

/-- Claim C4, witness: a failing turn on the input `hello` prints
`AI: No answer` and returns to a fresh enabled input box. -/
theorem c4_no_answer_witness :
    (ChatUX_chat errOracle (setInput initChatState "hello")).out =
      (setInput initChatState "hello").out ++ ["boom", "AI: No answer"] ∧
    (ChatUX_chat errOracle (setInput initChatState "hello")).name =
      some { value := "", disabled := false } ∧
    (ChatUX_chat errOracle (setInput initChatState "hello")).sendDisabled = some false ∧
    (ChatUX_chat errOracle (setInput initChatState "hello")).qaCalls =
      (setInput initChatState "hello").qaCalls + 1 :=
  c4_no_answer errOracle (setInput initChatState "hello")
    { value := "hello", disabled := false } "boom" rfl rfl (by decide) rfl

/-- Claim C10.  When the chain raises during a turn, the Conversation Memory
is left unchanged: neither the failing question nor the substituted
`No answer` reply is appended. -/
theorem c10_memory_unchanged_on_error :
    ∀ (oracle : Oracle) (s : ChatState) (w : TextWidget) (e : String),
      s.name = some w → isQuitInput w.value = false → 0 < w.value.length →
      oracle s.memory w.value = Except.error e →
      (ChatUX_chat oracle s).memory = s.memory := by
  intro oracle s w e hw hq hlen herr
  unfold ChatUX_chat
  rw [hw]
  simp [hq, hlen, herr]

/-- Claim C10, witness: a failing turn on the input `hi` leaves the (empty)
memory empty. -/
theorem c10_memory_unchanged_on_error_witness :
    (ChatUX_chat errOracle (setInput initChatState "hi")).memory =
      (setInput initChatState "hi").memory :=
  c10_memory_unchanged_on_error errOracle (setInput initChatState "hi")
    { value := "hi", disabled := false } "boom" rfl rfl (by decide) rfl

theorem chat_ok_memory (ans : String → String) (s : ChatState) (q : String)
    (hq : isQuitInput q = false) (hlen : 0 < q.length) :
    (ChatUX_chat (okOracle ans) (setInput s q)).memory = s.memory ++ [(q, ans q)] := by
  unfold ChatUX_chat setInput
  simp [hq, hlen, okOracle]

/-- Claim C8.  With a chain that answers every question, running N non-empty
non-sentinel turns appends exactly the N (question, answer) pairs to the
memory, in turn order; and in full generality every single turn of the chat
handler only ever appends a (possibly empty) suffix to the memory — it never
reorders, rewrites or deduplicates it. -/
theorem c8_memory_append_only :
    (∀ (ans : String → String) (s : ChatState) (qs : List String),
      (∀ q ∈ qs, isQuitInput q = false ∧ 0 < q.length) →
      (runTurns (okOracle ans) s qs).memory =
        s.memory ++ qs.map (fun q => (q, ans q))) ∧
    (∀ (oracle : Oracle) (s : ChatState) (v : String),
      ∃ suffix, (ChatUX_chat oracle (setInput s v)).memory = s.memory ++ suffix) := by
  constructor
  · intro ans s qs
    induction qs generalizing s with
    | nil => intro _; simp [runTurns]
    | cons q qs ih =>
      intro hall
      have hq := hall q (List.mem_cons_self q qs)
      have hrest : ∀ x ∈ qs, isQuitInput x = false ∧ 0 < x.length :=
        fun x hx => hall x (List.mem_cons_of_mem q hx)
      show (runTurns (okOracle ans) (ChatUX_chat (okOracle ans) (setInput s q)) qs).memory = _
      rw [ih _ hrest, chat_ok_memory ans s q hq.1 hq.2]
      simp
  · intro oracle s v
    by_cases hq : isQuitInput v = true
    · refine ⟨[], ?_⟩
      unfold ChatUX_chat setInput
      simp [hq]
    · rw [Bool.not_eq_true] at hq
      by_cases hlen : 0 < v.length
      · cases ho : oracle s.memory v with
        | ok a =>
          refine ⟨[(v, a)], ?_⟩
          unfold ChatUX_chat setInput
          simp [hq, hlen, ho]
        | error e =>
          refine ⟨[], ?_⟩
          unfold ChatUX_chat setInput
          simp [hq, hlen, ho]
      · refine ⟨[], ?_⟩
        unfold ChatUX_chat setInput
        simp [hq, hlen]

/-- Claim C8, witness: two successful turns append exactly their two pairs in
order, and a single arbitrary turn from the fresh state only appends. -/
theorem c8_memory_append_only_witness :
    (runTurns (okOracle (fun q => q ++ "!")) initChatState ["hi", "there"]).memory =
      initChatState.memory ++ (["hi", "there"].map (fun q => (q, q ++ "!"))) ∧
    ∃ suffix, (ChatUX_chat oracle0 (setInput initChatState "x")).memory =
      initChatState.memory ++ suffix :=
  ⟨c8_memory_append_only.1 (fun q => q ++ "!") initChatState ["hi", "there"] (by decide),
   c8_memory_append_only.2 oracle0 initChatState "x"⟩

theorem lookup_none_of_any_false (kvs : List (String × Json))
    (h : kvs.any (fun kv => kv.1 == "generated_text") = false) :
    kvs.lookup "generated_text" = none := by
  induction kvs with
  | nil => rfl
  | cons p t ih =>
    rw [List.any_cons, Bool.or_eq_false_iff] at h
    obtain ⟨h1, h2⟩ := h
    cases p with
    | mk k v =>
      have hk : ("generated_text" == k) = false := by
        simp only [beq_eq_false_iff_ne] at h1 ⊢
        exact fun hh => h1 hh.symm
      simp [List.lookup, hk, ih h2]

/-- Claim C5.  When a response body does not carry the generated-text field at
the place `transform_output` reads it (element 0 being an object with key
`generated_text`), the decoder raises — KeyError or TypeError, the
InferenceError of the spec — and never returns a partial or empty string.
In particular the body `{"not_generated_text": "x"}` raises. -/
theorem c5_missing_field_raises :
    ∀ body : Json, hasGeneratedText body = false →
      isOkE (transform_output body) = false := by
  intro body h
  cases body with
  | null => rfl
  | bool b => rfl
  | num v => rfl
  | str s =>
    unfold transform_output pyIndexInt
    cases hs : s.data with
    | nil => simp [hs, bind, Except.bind, isOkE]
    | cons c t => simp [hs, bind, Except.bind, pyIndexStr, isOkE]
  | obj kvs => rfl
  | arr xs =>
    cases xs with
    | nil => rfl
    | cons x t =>
      cases x with
      | null => rfl
      | bool b => rfl
      | num v => rfl
      | str s => rfl
      | arr ys => rfl
      | obj kvs =>
        have hl : kvs.lookup "generated_text" = none := by
          apply lookup_none_of_any_false
          simpa [hasGeneratedText] using h
        unfold transform_output pyIndexInt
        simp [bind, Except.bind, pyIndexStr, hl, isOkE]

/-- Claim C5, witness: the body `{"not_generated_text": "x"}` makes the
decoder raise instead of returning a string. -/
theorem c5_missing_field_raises_witness :
    hasGeneratedText (Json.obj [("not_generated_text", Json.str "x")]) = false ∧
    isOkE (transform_output (Json.obj [("not_generated_text", Json.str "x")])) = false :=
  ⟨rfl, c5_missing_field_raises (Json.obj [("not_generated_text", Json.str "x")]) rfl⟩

/-- Claim C6, counterexample.  The `parameters` object of the request body
contains `do_sample` in addition to the five settings the claim lists, so it
does not consist exactly of temperature, top_p, max_new_tokens, stop and
repetition_penalty. -/
theorem c6_params_counterexample :
    objKeys ((jsonLookup (transform_input "hi" model_params) "parameters").getD Json.null) =
      ["do_sample", "top_p", "temperature", "max_new_tokens", "stop",
       "repetition_penalty"] ∧
    "do_sample" ∈
      objKeys ((jsonLookup (transform_input "hi" model_params) "parameters").getD Json.null) ∧
    "do_sample" ∉
      ["temperature", "top_p", "max_new_tokens", "stop", "repetition_penalty"] :=
  ⟨rfl, by decide, by decide⟩

/-- Claim C6 (amended).  For every prompt, the input serializer produces the
envelope `{"inputs": <stringified instructions>, "parameters": {...}}` whose
parameters object consists exactly of the configured do_sample, top_p,
temperature, max_new_tokens, stop and repetition_penalty settings, in that
order. -/
theorem c6_envelope_amended :
    ∀ prompt : String,
      objKeys (transform_input prompt model_params) = ["inputs", "parameters"] ∧
      jsonLookup (transform_input prompt model_params) "inputs" =
        some (Json.str (dumpInstructions prompt)) ∧
      jsonLookup (transform_input prompt model_params) "parameters" =
        some (Json.obj model_params) ∧
      objKeys (Json.obj model_params) =
        ["do_sample", "top_p", "temperature", "max_new_tokens", "stop",
         "repetition_penalty"] :=
  fun _ => ⟨rfl, rfl, rfl, rfl⟩

/-- Claim C7.  Substituting the prompt template with any one of its three
required slots (context, chat_history, question) absent fails with KeyError —
the TemplateError of the spec — and assembles no output; in particular a call
missing the chat_history slot fails, whatever the other two values are. -/
theorem c7_missing_slot_fails :
    ∀ c ch q : String,
      pyFormat prompt_template [("context", c), ("question", q)] =
        Except.error PyErr.keyError ∧
      pyFormat prompt_template [("chat_history", ch), ("question", q)] =
        Except.error PyErr.keyError ∧
      pyFormat prompt_template [("context", c), ("chat_history", ch)] =
        Except.error PyErr.keyError :=
  fun _ _ _ => ⟨rfl, rfl, rfl⟩

theorem evens_cons {α : Type} (x : α) (t : List α) :
    evens (x :: t) = x :: odds t := by
  cases t with
  | nil => rfl
  | cons c t' => rfl

theorem zip_evens_odds {α : Type} : ∀ l : List α,
    (evens l).zip (odds l) = pairUp l := by
  intro l
  induction l using twoStepInduction with
  | h0 => rfl
  | h1 a => rfl
  | h2 a b t ih =>
    have hev : evens (a :: b :: t) = a :: evens t := rfl
    have hodds : odds (a :: b :: t) = b :: odds t := evens_cons b t
    rw [hev, hodds]
    show (a, b) :: (evens t).zip (odds t) = (a, b) :: pairUp t
    rw [ih]

theorem foldl_instSeg (ps : List (Instr × Instr)) (acc : List String) :
    ps.foldl (fun a p => a ++ instSeg p.1 p.2) acc =
      acc ++ (ps.map (fun p => instSeg p.1 p.2)).flatten := by
  induction ps generalizing acc with
  | nil => simp
  | cons p t ih => simp [List.foldl_cons, ih, List.append_assoc]

theorem joinStrs_append : ∀ xs ys : List String,
    joinStrs (xs ++ ys) = joinStrs xs ++ joinStrs ys := by
  intro xs ys
  induction xs with
  | nil => simp [joinStrs, String.empty_append]
  | cons s t ih => simp [joinStrs, ih, String.append_assoc]

theorem format_instructions_ok {l : List Instr} {lastI : Instr}
    (h : l.getLast? = some lastI) :
    format_instructions l =
      Except.ok (joinStrs (((pairUp l).map (fun p => instSeg p.1 p.2)).flatten ++
        ["<s>", "[INST] ", pyStrip lastI.content, " [/INST] "])) := by
  unfold format_instructions
  rw [h]
  simp only [zip_evens_odds, foldl_instSeg, List.nil_append]

theorem c9_even_aux :
    ∀ l : List Instr, l.length % 2 = 0 → ∀ lastI, l.getLast? = some lastI →
      ∃ pre, format_instructions l =
        Except.ok (pre ++ " [/INST] " ++ pyStrip lastI.content ++ "</s>" ++ "<s>" ++
          "[INST] " ++ pyStrip lastI.content ++ " [/INST] ") := by
  intro l
  induction l using twoStepInduction with
  | h0 => intro _ lastI h; simp at h
  | h1 a => intro hpar; simp at hpar
  | h2 a b t ih =>
    intro hpar lastI hlast
    have hpt : t.length % 2 = 0 := by
      simp [List.length_cons] at hpar
      omega
    cases t with
    | nil =>
      have hb : lastI = b := by
        simp [List.getLast?] at hlast
        exact hlast.symm
      subst hb
      refine ⟨"<s>" ++ "[INST] " ++ pyStrip a.content, ?_⟩
      rw [format_instructions_ok hlast]
      congr 1
      simp only [String.append_assoc]
      rfl
    | cons c t' =>
      have hlast' : (c :: t').getLast? = some lastI := by
        rw [List.getLast?_cons_cons, List.getLast?_cons_cons] at hlast
        exact hlast
      obtain ⟨pre', hpre⟩ := ih hpt lastI hlast'
      refine ⟨joinStrs (instSeg a b) ++ pre', ?_⟩
      rw [format_instructions_ok hlast]
      rw [format_instructions_ok hlast'] at hpre
      injection hpre with hpre
      congr 1
      have hpair : pairUp (a :: b :: c :: t') = (a, b) :: pairUp (c :: t') := rfl
      rw [hpair, List.map_cons, List.flatten_cons, List.append_assoc, joinStrs_append, hpre]
      simp only [String.append_assoc]

/-- Claim C9.  For every non-empty instruction list, `format_instructions`
returns a string whose final segment is `<s>[INST] ` followed by the stripped
content of the last element and ` [/INST] `; and for every even-length list
the stripped content of the last element appears twice — once closing the
final (user, assistant) pair and once more wrapped as the trailing open
`[INST]` block. -/
theorem c9_trailing_inst_block :
    ∀ (l : List Instr) (lastI : Instr), l.getLast? = some lastI →
      (∃ pre, format_instructions l =
        Except.ok (pre ++ "<s>" ++ "[INST] " ++ pyStrip lastI.content ++ " [/INST] ")) ∧
      (l.length % 2 = 0 →
        ∃ pre, format_instructions l =
          Except.ok (pre ++ " [/INST] " ++ pyStrip lastI.content ++ "</s>" ++ "<s>" ++
            "[INST] " ++ pyStrip lastI.content ++ " [/INST] ")) := by
  intro l lastI hlast
  constructor
  · refine ⟨joinStrs ((pairUp l).map (fun p => instSeg p.1 p.2)).flatten, ?_⟩
    rw [format_instructions_ok hlast]
    congr 1
    rw [joinStrs_append]
    simp only [joinStrs, String.append_assoc, String.append_empty]
  · intro hpar
    exact c9_even_aux l hpar lastI hlast

/-- Claim C9, witness: on the two-element dialogue the stripped last content
`there` appears both closing the pair and in the trailing open block. -/
theorem c9_trailing_inst_block_witness :
    (∃ pre, format_instructions demoInstrs =
      Except.ok (pre ++ "<s>" ++ "[INST] " ++
        pyStrip (Instr.content { role := "assistant", content := " there " }) ++
        " [/INST] ")) ∧
    (∃ pre, format_instructions demoInstrs =
      Except.ok (pre ++ " [/INST] " ++
        pyStrip (Instr.content { role := "assistant", content := " there " }) ++
        "</s>" ++ "<s>" ++ "[INST] " ++
        pyStrip (Instr.content { role := "assistant", content := " there " }) ++
        " [/INST] ")) :=
  ⟨(c9_trailing_inst_block demoInstrs { role := "assistant", content := " there " } rfl).1,
   (c9_trailing_inst_block demoInstrs { role := "assistant", content := " there " } rfl).2 rfl⟩
